import Mathlib

/-!
# Session registry, reconciliation and listener of `user/user.go`

A shallow embedding of package `user`: the Redis key space the package reads
and writes, the `User` object with its two Go channels, the methods
`Connect`, `Subscribe`, `Unsubscribe`, `connect`, `doConnect`, `Disconnect`,
`GetChannels`, and the body of the listener goroutine.

Conventions.
* A Go call that returns `error` returns `Res Unit`; a run-time panic
  (closing a closed channel) is the third outcome `Res.panic`.
* The Redis client is the key space together with a script of adapter
  outcomes: every command sent (`SIsMember`, `SAdd`, `SRem`, `SMembers`,
  `PubSub.Unsubscribe`, `PubSub.Close`) consumes one entry, and an entry
  `some e` makes that command fail with error `e`.
  `SIsMember(..).Val()` discards the command error in the source: a failed
  `SISMEMBER` reads as `false`.
* The script is the environment. The handle of `rdb.Subscribe` carries no
  state of its own; what the client library answers on a handle in a given
  state (on a handle that has been closed: `redis: client is closed`) is the
  script entry of that call.
* `fmt.Println` calls write to standard output only and are left out.
-/

namespace ChatUser

/-! ## Outcomes -/

/-- Outcome of a Go call: normal return, returned `error`, or run-time panic. -/
inductive Res (α : Type) where
  | ok (a : α)
  | err (e : String)
  | panic (msg : String)
deriving DecidableEq, Repr

/-! ## Redis client -/

/-- Line 10: key of the set of connected user names. -/
def usersKey : String := "users"

/-- Line 12: key of the set of global channels. -/
def ChannelsKey : String := "channels"

/-- Line 11: `fmt.Sprintf(userChannelFmt, name)` with `userChannelFmt = "user:%s:channels"`. -/
def userChannelsKey (name : String) : String := "user:" ++ name ++ ":channels"

/-- The Redis client: the sets stored under each key (members in the order
`SMEMBERS` reports them) and the script of outcomes of the coming commands. -/
structure Redis where
  sets : String → List String
  faults : List (Option String)

/-- A Redis set holds each member once. -/
def Redis.WF (rdb : Redis) : Prop := ∀ key, (rdb.sets key).Nodup

/-- One round trip of a command whose error is inspected: the next scripted
outcome is consumed; an exhausted script means success. -/
def Redis.call (rdb : Redis) : Redis × Option String :=
  match rdb.faults with
  | [] => (rdb, none)
  | f :: rest => ({ rdb with faults := rest }, f)

/-- Reading `rdb.SIsMember(key, member).Val()`: one round trip; `Val()` drops
the error of the command, so a failed command reads as `false`. -/
def SIsMember (rdb : Redis) (key member : String) : Redis × Bool :=
  match rdb.call with
  | (r, some _) => (r, false)
  | (r, none) => (r, decide (member ∈ r.sets key))

/-- Running `rdb.SAdd(key, member)`: on success the member is in the set. -/
def SAdd (rdb : Redis) (key member : String) : Redis × Option String :=
  match rdb.call with
  | (r, some e) => (r, some e)
  | (r, none) =>
    if member ∈ r.sets key then (r, none)
    else ({ r with sets := Function.update r.sets key (r.sets key ++ [member]) }, none)

/-- Running `rdb.SRem(key, member)`: on success the member is not in the set. -/
def SRem (rdb : Redis) (key member : String) : Redis × Option String :=
  match rdb.call with
  | (r, some e) => (r, some e)
  | (r, none) =>
    ({ r with sets := Function.update r.sets key ((r.sets key).filter (fun x => x ≠ member)) }, none)

/-- Running `rdb.SMembers(key).Result()`. -/
def SMembers (rdb : Redis) (key : String) : Redis × Except String (List String) :=
  match rdb.call with
  | (r, some e) => (r, Except.error e)
  | (r, none) => (r, Except.ok (r.sets key))

/-! ## Broker handle and Go channels -/

/-- A `*redis.PubSub` as returned by `rdb.Subscribe(channels...)`: the
channels it was opened on. The handle keeps no open or closed state; see
`PubSub.Unsubscribe`. -/
structure PubSub where
  channels : List String
deriving DecidableEq, Repr

/-- Line 117: `rdb.Subscribe(channels...)` returns a handle and no error. -/
def Redis.Subscribe (_rdb : Redis) (channels : List String) : PubSub :=
  { channels := channels }

/-- Calling `pubSub.Unsubscribe()`: the outcome is the next script entry. The
answer of the client library on a handle that `Close` has already closed,
the error `redis: client is closed`, is that entry in a run that follows
the library. -/
def PubSub.Unsubscribe (_h : PubSub) (rdb : Redis) : Redis × Option String :=
  rdb.call

/-- Calling `pubSub.Close()`: the outcome is the next script entry, as for
`PubSub.Unsubscribe`. -/
def PubSub.Close (_h : PubSub) (rdb : Redis) : Redis × Option String :=
  rdb.call

/-- A `redis.Message`. -/
structure Message where
  Channel : String
  Pattern : String
  Payload : String
deriving DecidableEq, Repr

/-- A `chan struct{}` used only through `close`. -/
structure Chan where
  closed : Bool
deriving DecidableEq, Repr

/-- The Go builtin `close(c)`: closing a closed channel panics (`none`). -/
def Chan.close (c : Chan) : Option Chan :=
  if c.closed then none else some { closed := true }

/-- The `chan redis.Message` of a user: whether it is closed and the messages
sent into it so far. -/
structure MsgChan where
  closed : Bool
  sent : List Message
deriving DecidableEq, Repr

/-- The Go builtin `close(c)` on a message channel. -/
def MsgChan.close (c : MsgChan) : Option MsgChan :=
  if c.closed then none else some { c with closed := true }

/-- Text of the run-time panic raised by a second `close`. -/
def closeOfClosed : String := "close of closed channel"

/-- Text of the error the client library returns on a closed handle. -/
def clientClosed : String := "redis: client is closed"

/-! ## The user object -/

/-- Lines 15-24: the `User` struct. `spawned` is not a field of the source:
it counts the listener goroutines launched by `doConnect` whose first
statement has not run yet. -/
structure User where
  name : String
  channels : List String
  channelsHandler : Option PubSub
  stopListener : Chan
  listenerRunning : Bool
  MessageChan : MsgChan
  spawned : Nat
deriving DecidableEq, Repr

/-- Lines 98-105 and 142-149: unsubscribe and close the handle when there is one. -/
def closeHandler (rdb : Redis) (h : Option PubSub) : Redis × Option String :=
  match h with
  | none => (rdb, none)
  | some p =>
    match p.Unsubscribe rdb with
    | (rdb1, some e) => (rdb1, some e)
    | (rdb1, none) => p.Close rdb1

/-- Lines 115-139: `doConnect` opens the subscription on `u.channels`, keeps
the handle and launches the listener goroutine. -/
def User.doConnect (rdb : Redis) (u : User) : Redis × User × Res Unit :=
  let pubSub := rdb.Subscribe u.channels
  (rdb, { u with channelsHandler := some pubSub, spawned := u.spawned + 1 }, Res.ok ())

/-- Line 123: the first statement of a launched listener goroutine. -/
def User.listenerStart (u : User) : User :=
  match u.spawned with
  | 0 => u
  | n + 1 => { u with listenerRunning := true, spawned := n }

/-- Lines 76-113: `connect`, the reconciliation. -/
def User.connect (rdb : Redis) (u : User) : Redis × User × Res Unit :=
  match SMembers rdb ChannelsKey with
  | (rdb1, Except.error e) => (rdb1, u, Res.err e)
  | (rdb1, Except.ok c1) =>
    match SMembers rdb1 (userChannelsKey u.name) with
    | (rdb2, Except.error e) => (rdb2, u, Res.err e)
    | (rdb2, Except.ok c2) =>
      let c := c1 ++ c2
      if c.length = 0 then (rdb2, u, Res.ok ())
      else
        match closeHandler rdb2 u.channelsHandler with
        | (rdb3, some e) => (rdb3, u, Res.err e)
        | (rdb3, none) =>
          if u.listenerRunning then
            match u.stopListener.close with
            | none => (rdb3, u, Res.panic closeOfClosed)
            | some s => User.doConnect rdb3 { u with stopListener := s, channels := c }
          else User.doConnect rdb3 { u with channels := c }

/-- Lines 27-46: `Connect`. -/
def Connect (rdb : Redis) (name : String) : Redis × Res User :=
  match SIsMember rdb usersKey name with
  | (rdb0, true) => (rdb0, Res.err ("user " ++ name ++ " is already connected"))
  | (rdb0, false) =>
    match SAdd rdb0 usersKey name with
    | (rdb1, some e) => (rdb1, Res.err e)
    | (rdb1, none) =>
      let u : User :=
        { name := name, channels := [], channelsHandler := none,
          stopListener := { closed := false }, listenerRunning := false,
          MessageChan := { closed := false, sent := [] }, spawned := 0 }
      match User.connect rdb1 u with
      | (rdb2, _, Res.err e) => (rdb2, Res.err e)
      | (rdb2, _, Res.panic m) => (rdb2, Res.panic m)
      | (rdb2, u1, Res.ok _) => (rdb2, Res.ok u1)

/-- Lines 48-60: `Subscribe`. -/
def User.Subscribe (rdb : Redis) (u : User) (channel : String) : Redis × User × Res Unit :=
  match SIsMember rdb (userChannelsKey u.name) channel with
  | (rdb0, true) => (rdb0, u, Res.ok ())
  | (rdb0, false) =>
    match SAdd rdb0 (userChannelsKey u.name) channel with
    | (rdb1, some e) => (rdb1, u, Res.err e)
    | (rdb1, none) => User.connect rdb1 u

/-- Lines 62-74: `Unsubscribe`. -/
def User.Unsubscribe (rdb : Redis) (u : User) (channel : String) : Redis × User × Res Unit :=
  match SIsMember rdb (userChannelsKey u.name) channel with
  | (rdb0, false) => (rdb0, u, Res.ok ())
  | (rdb0, true) =>
    match SRem rdb0 (userChannelsKey u.name) channel with
    | (rdb1, some e) => (rdb1, u, Res.err e)
    | (rdb1, none) => User.connect rdb1 u

/-- Lines 141-161: `Disconnect`. The handle stays installed after the call;
what a later teardown of it returns is the script entry of that call. -/
def User.Disconnect (rdb : Redis) (u : User) : Redis × User × Res Unit :=
  match closeHandler rdb u.channelsHandler with
  | (rdb1, some e) => (rdb1, u, Res.err e)
  | (rdb1, none) =>
    let stopped : Option User :=
      if u.listenerRunning then
        match u.stopListener.close with
        | none => none
        | some s => some { u with stopListener := s, listenerRunning := false }
      else some u
    match stopped with
    | none => (rdb1, u, Res.panic closeOfClosed)
    | some u1 =>
      match SRem rdb1 usersKey u1.name with
      | (rdb2, some e) => (rdb2, u1, Res.err e)
      | (rdb2, none) =>
        match u1.MessageChan.close with
        | none => (rdb2, u1, Res.panic closeOfClosed)
        | some mc => (rdb2, { u1 with MessageChan := mc }, Res.ok ())

/-- Lines 171-193: `GetChannels`. It only reads; the words "and start
subscribe" in the comment of line 185 belong to `connect` (line 86), no
subscription is opened here. -/
def GetChannels (rdb : Redis) (username : String) : Redis × Res (List String) :=
  match SIsMember rdb usersKey username with
  | (rdb0, false) => (rdb0, Res.err "user not exists")
  | (rdb0, true) =>
    match SMembers rdb0 ChannelsKey with
    | (rdb1, Except.error e) => (rdb1, Res.err e)
    | (rdb1, Except.ok c1) =>
      match SMembers rdb1 (userChannelsKey username) with
      | (rdb2, Except.error e) => (rdb2, Res.err e)
      | (rdb2, Except.ok c2) => (rdb2, Res.ok (c1 ++ c2))

/-! ## The listener goroutine -/

/-- What one evaluation of the `select` of lines 126-135 can observe. -/
inductive Event where
  | message (m : Message)
  | streamEnded
  | cancelled
deriving DecidableEq, Repr

/-- Where control is after one pass through the body of the `for` of line 125. -/
inductive Flow where
  | iterate
  | exit
  | panic
deriving DecidableEq, Repr

/-- Lines 126-135, one pass through the loop body. A `break` inside a
`select` ends the `select` statement, so control reaches the end of the
loop body and the `for` iterates again. -/
def listenerIter (mc : MsgChan) : Event → MsgChan × Flow
  | Event.message m =>
    if mc.closed then (mc, Flow.panic)
    else ({ mc with sent := mc.sent ++ [m] }, Flow.iterate)
  | Event.streamEnded => (mc, Flow.iterate)
  | Event.cancelled => (mc, Flow.iterate)

/-- Lines 125-136: the loop over a sequence of observed events. -/
def listenerRun (mc : MsgChan) : List Event → MsgChan × Flow
  | [] => (mc, Flow.iterate)
  | e :: es =>
    match listenerIter mc e with
    | (mc1, Flow.iterate) => listenerRun mc1 es
    | r => r


/-! ## Driving the package -/

/-- The next `n` commands whose error is inspected succeed. -/
def Redis.succeeds (rdb : Redis) (n : Nat) : Prop := ∀ f ∈ rdb.faults.take n, f = none

/-- A store with no connected user, the given global channels, no per-user
set and no scripted failure. -/
def storeWith (global : List String) : Redis :=
  { sets := fun key => if key = ChannelsKey then global else [], faults := [] }

/-- A step of a caller that owns one user: a method call on the user, or the
scheduler letting a launched listener goroutine run its first statement. -/
inductive Op where
  | subscribe (channel : String)
  | unsubscribe (channel : String)
  | disconnect
  | listenerStart
deriving DecidableEq, Repr

/-- One step of the caller. -/
def runOp (rdb : Redis) (u : User) : Op → Redis × User × Res Unit
  | Op.subscribe t => User.Subscribe rdb u t
  | Op.unsubscribe t => User.Unsubscribe rdb u t
  | Op.disconnect => User.Disconnect rdb u
  | Op.listenerStart => (rdb, u.listenerStart, Res.ok ())

/-- The steps in order; the run ends at the first step that does not return
normally, with that outcome. -/
def runOps (rdb : Redis) (u : User) : List Op → Redis × User × Res Unit
  | [] => (rdb, u, Res.ok ())
  | op :: ops =>
    match runOp rdb u op with
    | (rdb1, u1, Res.ok _) => runOps rdb1 u1 ops
    | r => r

/-- The call `Connect(rdb, name)` followed by the steps on the user it returned. -/
def session (rdb : Redis) (name : String) (ops : List Op) : Redis × Option User × Res Unit :=
  match Connect rdb name with
  | (rdb1, Res.ok u) =>
    match runOps rdb1 u ops with
    | (rdb2, u2, r) => (rdb2, some u2, r)
  | (rdb1, Res.err e) => (rdb1, none, Res.err e)
  | (rdb1, Res.panic m) => (rdb1, none, Res.panic m)

/-- A store with the given connected users and global channels in which the
user `name` has the per-user set `own`; `faults` is the outcome script. -/
def storeFor (users global : List String) (name : String) (own : List String)
    (faults : List (Option String)) : Redis :=
  { sets := fun key =>
      if key = usersKey then users
      else if key = ChannelsKey then global
      else if key = userChannelsKey name then own
      else [],
    faults := faults }

/-- The user "alice" as `Connect` builds it when there is no channel at all. -/
def aliceIdle : User :=
  { name := "alice", channels := [], channelsHandler := none,
    stopListener := { closed := false }, listenerRunning := false,
    MessageChan := { closed := false, sent := [] }, spawned := 0 }

/-- The user "alice" subscribed to "general" with her listener running. -/
def aliceListening : User :=
  { name := "alice", channels := ["general"],
    channelsHandler := some { channels := ["general"] },
    stopListener := { closed := false }, listenerRunning := true,
    MessageChan := { closed := false, sent := [] }, spawned := 0 }

/-- The message "hi" on channel "dev". -/
def hiOnDev : Message := { Channel := "dev", Pattern := "", Payload := "hi" }

/-! ## Adapter lemmas -/

theorem call_sets (rdb : Redis) : rdb.call.1.sets = rdb.sets := by
  unfold Redis.call
  cases rdb.faults <;> rfl

theorem call_succeeds (rdb : Redis) (n : Nat) (h : rdb.succeeds (n + 1)) :
    rdb.call.2 = none ∧ rdb.call.1.succeeds n := by
  unfold Redis.succeeds at h
  unfold Redis.call Redis.succeeds
  cases hf : rdb.faults with
  | nil => simp [hf]
  | cons f rest =>
    rw [hf, List.take_succ_cons] at h
    refine ⟨h f (List.mem_cons_self f _), ?_⟩
    intro g hg
    exact h g (List.mem_cons_of_mem f hg)

theorem SMembers_sets (rdb : Redis) (key : String) : (SMembers rdb key).1.sets = rdb.sets := by
  unfold SMembers
  have h := call_sets rdb
  rcases hc : rdb.call with ⟨r, _ | e⟩ <;> simp [hc] at h ⊢ <;> exact h

theorem SMembers_ok (rdb rdb1 : Redis) (key : String) (c : List String)
    (h : SMembers rdb key = (rdb1, Except.ok c)) : c = rdb.sets key ∧ rdb1.sets = rdb.sets := by
  have hs := SMembers_sets rdb key
  unfold SMembers at h
  rcases hc : rdb.call with ⟨r, _ | e⟩ <;> simp [hc] at h
  obtain ⟨h1, h2⟩ := h
  have hcs := call_sets rdb
  rw [hc] at hcs
  simp at hcs
  subst h1
  exact ⟨by rw [← h2, hcs], hcs⟩

theorem SMembers_succeeds (rdb : Redis) (key : String) (n : Nat) (h : rdb.succeeds (n + 1)) :
    (SMembers rdb key).2 = Except.ok (rdb.sets key) ∧ (SMembers rdb key).1.succeeds n := by
  have hc := call_succeeds rdb n h
  have hs := call_sets rdb
  unfold SMembers
  rcases hcall : rdb.call with ⟨r, _ | e⟩
  · rw [hcall] at hc hs
    simp at hs
    simp [hs]
    exact hc.2
  · rw [hcall] at hc
    simp at hc

theorem SAdd_mem (rdb rdb1 : Redis) (key member : String)
    (h : SAdd rdb key member = (rdb1, none)) : member ∈ rdb1.sets key := by
  unfold SAdd at h
  rcases hc : rdb.call with ⟨r, _ | e⟩ <;> simp [hc] at h
  by_cases hm : member ∈ r.sets key
  · simp [hm] at h
    rw [← h]
    exact hm
  · simp [hm] at h
    rw [← h]
    simp

theorem closeHandler_sets (rdb : Redis) (h : Option PubSub) :
    (closeHandler rdb h).1.sets = rdb.sets := by
  unfold closeHandler
  cases h with
  | none => rfl
  | some p =>
    simp only [PubSub.Unsubscribe, PubSub.Close]
    have h1 := call_sets rdb
    rcases hc : rdb.call with ⟨r, _ | e⟩
    · rw [hc] at h1
      simp at h1
      simp [call_sets, h1]
    · rw [hc] at h1
      simpa using h1

theorem connect_sets (rdb : Redis) (u : User) : (User.connect rdb u).1.sets = rdb.sets := by
  unfold User.connect
  have h1 := SMembers_sets rdb ChannelsKey
  rcases hc1 : SMembers rdb ChannelsKey with ⟨rdb1, e | c1⟩
  · rw [hc1] at h1
    simpa using h1
  · rw [hc1] at h1
    simp only at h1 ⊢
    have h2 := SMembers_sets rdb1 (userChannelsKey u.name)
    rcases hc2 : SMembers rdb1 (userChannelsKey u.name) with ⟨rdb2, e | c2⟩
    · rw [hc2] at h2
      simp only at h2 ⊢
      rw [h2, h1]
    · rw [hc2] at h2
      simp only at h2 ⊢
      split
      · simp only
        rw [h2, h1]
      · have h3 := closeHandler_sets rdb2 u.channelsHandler
        rcases hc3 : closeHandler rdb2 u.channelsHandler with ⟨rdb3, _ | e⟩
        · rw [hc3] at h3
          simp only at h3 ⊢
          split
          · split <;> simp [User.doConnect, h3, h2, h1]
          · simp [User.doConnect, h3, h2, h1]
        · rw [hc3] at h3
          simp only at h3 ⊢
          rw [h3, h2, h1]

theorem connect_name (rdb : Redis) (u : User) : (User.connect rdb u).2.1.name = u.name := by
  unfold User.connect
  rcases SMembers rdb ChannelsKey with ⟨rdb1, e | c1⟩
  · rfl
  · simp only
    rcases SMembers rdb1 (userChannelsKey u.name) with ⟨rdb2, e | c2⟩
    · rfl
    · simp only
      split
      · rfl
      · rcases closeHandler rdb2 u.channelsHandler with ⟨rdb3, _ | e⟩
        · simp only
          split
          · split <;> simp [User.doConnect]
          · simp [User.doConnect]
        · rfl

/-! ## Session registry: `Connect`, `Subscribe`, `Unsubscribe`, `GetChannels` -/

theorem SIsMember_fst (rdb : Redis) (key member : String) :
    (SIsMember rdb key member).1 = rdb.call.1 := by
  unfold SIsMember
  rcases rdb.call with ⟨r, _ | e⟩ <;> rfl

theorem SIsMember_sets (rdb : Redis) (key member : String) :
    (SIsMember rdb key member).1.sets = rdb.sets := by
  rw [SIsMember_fst]
  exact call_sets rdb

theorem SIsMember_true (rdb : Redis) (key member : String)
    (h : (SIsMember rdb key member).2 = true) : member ∈ rdb.sets key := by
  have hs := call_sets rdb
  unfold SIsMember at h
  rcases hc : rdb.call with ⟨r, _ | e⟩
  · rw [hc] at h hs
    simp only [decide_eq_true_eq] at h hs
    rw [← hs]
    exact h
  · rw [hc] at h
    simp at h

theorem SIsMember_not_mem (rdb : Redis) (key member : String)
    (h : member ∉ rdb.sets key) : (SIsMember rdb key member).2 = false := by
  cases hb : (SIsMember rdb key member).2 with
  | false => rfl
  | true => exact absurd (SIsMember_true rdb key member hb) h

theorem SIsMember_succeeds (rdb : Redis) (key member : String) (n : Nat)
    (h : rdb.succeeds (n + 1)) :
    (SIsMember rdb key member).2 = decide (member ∈ rdb.sets key) ∧
    (SIsMember rdb key member).1.succeeds n := by
  have hc := call_succeeds rdb n h
  have hs := call_sets rdb
  unfold SIsMember
  rcases hcall : rdb.call with ⟨r, _ | e⟩
  · rw [hcall] at hc hs
    simp only at hs hc ⊢
    rw [hs]
    exact ⟨rfl, hc.2⟩
  · rw [hcall] at hc
    simp at hc

theorem Connect_ok_mem (rdb rdb1 : Redis) (name : String) (u1 : User)
    (h : Connect rdb name = (rdb1, Res.ok u1)) : name ∈ rdb1.sets usersKey := by
  unfold Connect at h
  rcases hs : SIsMember rdb usersKey name with ⟨rdb0, _ | _⟩
  · rw [hs] at h
    simp only at h
    rcases hadd : SAdd rdb0 usersKey name with ⟨r, _ | e⟩
    · rw [hadd] at h
      simp only at h
      have hm := SAdd_mem rdb0 r usersKey name hadd
      have hcs := connect_sets r
        { name := name, channels := [], channelsHandler := none,
          stopListener := { closed := false }, listenerRunning := false,
          MessageChan := { closed := false, sent := [] }, spawned := 0 }
      revert h hcs
      generalize User.connect r _ = res
      rcases res with ⟨rdb2, u2, _ | e | m⟩ <;> intro h hcs <;> simp at h
      simp only at hcs
      rw [← h.1, hcs]
      exact hm
    · rw [hadd] at h
      simp at h
  · rw [hs] at h
    simp at h

theorem Connect_mem_read (rdb : Redis) (name : String)
    (hm : name ∈ rdb.sets usersKey) (hread : rdb.succeeds 1) :
    Connect rdb name =
      (rdb.call.1, Res.err ("user " ++ name ++ " is already connected")) := by
  have hr := SIsMember_succeeds rdb usersKey name 0 hread
  have hf := SIsMember_fst rdb usersKey name
  unfold Connect
  rcases hs : SIsMember rdb usersKey name with ⟨rdb0, b⟩
  rw [hs] at hr hf
  simp only at hr hf
  have hb : b = true := by
    rw [hr.1]
    simpa using hm
  subst hb
  subst hf
  rfl

/-- C1, as the code has it: when `Connect` of a name that is not in the set
of connected users succeeds, a second `Connect` with the same name whose
membership read (`SISMEMBER`, line 28) succeeds returns the error
"user NAME is already connected", and that call changes nothing: it sends
that one read and no other command, so the connected set, the global
channels and every per-user set are the same. The failing call builds no
`User` and receives no reference to the first one, so no field of the first
session is written. -/
theorem Connect_twice_already_connected (rdb rdb1 : Redis) (name : String) (u1 : User)
    (_hfresh : name ∉ rdb.sets usersKey)
    (h : Connect rdb name = (rdb1, Res.ok u1))
    (hread : rdb1.succeeds 1) :
    Connect rdb1 name =
      (rdb1.call.1, Res.err ("user " ++ name ++ " is already connected")) ∧
    rdb1.call.1.sets = rdb1.sets :=
  ⟨Connect_mem_read rdb1 name (Connect_ok_mem rdb rdb1 name u1 h) hread, call_sets rdb1⟩

/-- Witness for C1 on the store whose only global channel is "general". -/
theorem Connect_twice_already_connected_witness :
    Connect (Connect (storeWith ["general"]) "alice").1 "alice" =
      ((Connect (storeWith ["general"]) "alice").1.call.1,
        Res.err ("user " ++ "alice" ++ " is already connected")) ∧
    (Connect (storeWith ["general"]) "alice").1.call.1.sets =
      (Connect (storeWith ["general"]) "alice").1.sets :=
  Connect_twice_already_connected (storeWith ["general"])
    (Connect (storeWith ["general"]) "alice").1 "alice"
    { name := "alice", channels := ["general"], channelsHandler := some { channels := ["general"] },
      stopListener := { closed := false }, listenerRunning := false,
      MessageChan := { closed := false, sent := [] }, spawned := 1 }
    (by decide) (by rfl) (by unfold Redis.succeeds; decide)

/-- C1 as stated fails: the store has the global channel "general" and no
connected user, and the fifth command sent to it fails with
"i/o timeout". `Connect("alice")` sends four commands and returns a user;
the `SISMEMBER` of the second `Connect("alice")` is the fifth: `Val()` reads
`false`, line 28 does not return, and the call returns a second user for
the connected name instead of the already-connected error. -/
theorem Connect_twice_read_failure_counterexample :
    "alice" ∉ (storeFor [] ["general"] "alice" []
        [none, none, none, none, some "i/o timeout"]).sets usersKey ∧
    (Connect (storeFor [] ["general"] "alice" []
        [none, none, none, none, some "i/o timeout"]) "alice").2 =
      Res.ok { name := "alice", channels := ["general"],
               channelsHandler := some { channels := ["general"] },
               stopListener := { closed := false }, listenerRunning := false,
               MessageChan := { closed := false, sent := [] }, spawned := 1 } ∧
    (Connect (Connect (storeFor [] ["general"] "alice" []
        [none, none, none, none, some "i/o timeout"]) "alice").1 "alice").2 =
      Res.ok { name := "alice", channels := ["general"],
               channelsHandler := some { channels := ["general"] },
               stopListener := { closed := false }, listenerRunning := false,
               MessageChan := { closed := false, sent := [] }, spawned := 1 } ∧
    (Connect (Connect (storeFor [] ["general"] "alice" []
        [none, none, none, none, some "i/o timeout"]) "alice").1 "alice").2 ≠
      Res.err ("user " ++ "alice" ++ " is already connected") := by
  refine ⟨by decide, by decide, by decide, by decide⟩

theorem Subscribe_ok_mem (rdb rdb1 : Redis) (u u1 : User) (t : String)
    (h : User.Subscribe rdb u t = (rdb1, u1, Res.ok ())) :
    t ∈ rdb1.sets (userChannelsKey u.name) ∧ u1.name = u.name := by
  have hss := SIsMember_sets rdb (userChannelsKey u.name) t
  unfold User.Subscribe at h
  rcases hs : SIsMember rdb (userChannelsKey u.name) t with ⟨rdb0, _ | _⟩
  · rw [hs] at h
    simp only at h
    rcases hadd : SAdd rdb0 (userChannelsKey u.name) t with ⟨r, _ | e⟩
    · rw [hadd] at h
      simp only at h
      have hm := SAdd_mem rdb0 r (userChannelsKey u.name) t hadd
      have hcs := connect_sets r u
      have hn := connect_name r u
      rw [h] at hcs hn
      simp only at hcs hn
      rw [hcs]
      exact ⟨hm, hn⟩
    · rw [hadd] at h
      simp at h
  · have ht := SIsMember_true rdb (userChannelsKey u.name) t (by rw [hs])
    rw [hs] at h hss
    simp only [Prod.mk.injEq] at h hss
    rw [← h.1, hss, ← h.2.1]
    exact ⟨ht, rfl⟩

theorem Subscribe_mem_read (rdb : Redis) (u : User) (t : String)
    (hm : t ∈ rdb.sets (userChannelsKey u.name)) (hread : rdb.succeeds 1) :
    User.Subscribe rdb u t = (rdb.call.1, u, Res.ok ()) := by
  have hr := SIsMember_succeeds rdb (userChannelsKey u.name) t 0 hread
  have hf := SIsMember_fst rdb (userChannelsKey u.name) t
  unfold User.Subscribe
  rcases hs : SIsMember rdb (userChannelsKey u.name) t with ⟨rdb0, b⟩
  rw [hs] at hr hf
  simp only at hr hf
  have hb : b = true := by
    rw [hr.1]
    simpa using hm
  subst hb
  subst hf
  rfl

theorem Unsubscribe_not_mem (rdb : Redis) (u : User) (t : String)
    (hm : t ∉ rdb.sets (userChannelsKey u.name)) :
    User.Unsubscribe rdb u t = (rdb.call.1, u, Res.ok ()) := by
  have hb := SIsMember_not_mem rdb (userChannelsKey u.name) t hm
  have hf := SIsMember_fst rdb (userChannelsKey u.name) t
  unfold User.Unsubscribe
  rcases hs : SIsMember rdb (userChannelsKey u.name) t with ⟨rdb0, b⟩
  rw [hs] at hb hf
  simp only at hb hf
  subst hb
  subst hf
  rfl

/-- C2, as the code has it: `Subscribe(u, t)` with `t` already in the
persisted set of `u` and a membership read (`SISMEMBER`, line 52) that
succeeds, and `Unsubscribe(u, t)` with `t` not in that set, return nil
without a reconciliation: they send that one read and nothing else, so the
stored sets are the same and every field of the user (topic list, handle,
running flag, stop channel, launched listeners) is unchanged; and after a
`Subscribe(u, t)` that returned nil, `Subscribe(_, t)` on the same user, in
whatever state its fields are by then, is again such a no-op when its
membership read succeeds. -/
theorem Subscribe_Unsubscribe_noop (rdb : Redis) (u : User) (t : String) :
    (t ∈ rdb.sets (userChannelsKey u.name) → rdb.succeeds 1 →
      User.Subscribe rdb u t = (rdb.call.1, u, Res.ok ())) ∧
    (t ∉ rdb.sets (userChannelsKey u.name) →
      User.Unsubscribe rdb u t = (rdb.call.1, u, Res.ok ())) ∧
    (∀ rdb1 u1, User.Subscribe rdb u t = (rdb1, u1, Res.ok ()) →
      u1.name = u.name ∧
      ∀ u2 : User, u2.name = u.name → rdb1.succeeds 1 →
        User.Subscribe rdb1 u2 t = (rdb1.call.1, u2, Res.ok ()) ∧
        rdb1.call.1.sets = rdb1.sets) ∧
    rdb.call.1.sets = rdb.sets := by
  refine ⟨Subscribe_mem_read rdb u t, Unsubscribe_not_mem rdb u t, ?_, call_sets rdb⟩
  intro rdb1 u1 h
  have hm := Subscribe_ok_mem rdb rdb1 u u1 t h
  refine ⟨hm.2, ?_⟩
  intro u2 hn hread
  refine ⟨Subscribe_mem_read rdb1 u2 t ?_ hread, call_sets rdb1⟩
  rw [hn]
  exact hm.1

/-- Witness for C2: "dev" is in the per-user set of alice and "ops" is not;
and the first `Subscribe` of "dev" on the empty per-user set returns nil. -/
theorem Subscribe_Unsubscribe_noop_witness :
    User.Subscribe (storeFor ["alice"] [] "alice" ["dev"] []) aliceIdle "dev" =
      ((storeFor ["alice"] [] "alice" ["dev"] []).call.1, aliceIdle, Res.ok ()) ∧
    User.Unsubscribe (storeFor ["alice"] [] "alice" ["dev"] []) aliceIdle "ops" =
      ((storeFor ["alice"] [] "alice" ["dev"] []).call.1, aliceIdle, Res.ok ()) ∧
    User.Subscribe (User.Subscribe (storeFor ["alice"] [] "alice" [] []) aliceIdle "dev").1
        (User.Subscribe (storeFor ["alice"] [] "alice" [] []) aliceIdle "dev").2.1.listenerStart
        "dev" =
      ((User.Subscribe (storeFor ["alice"] [] "alice" [] []) aliceIdle "dev").1.call.1,
        (User.Subscribe (storeFor ["alice"] [] "alice" [] []) aliceIdle "dev").2.1.listenerStart,
        Res.ok ()) :=
  ⟨(Subscribe_Unsubscribe_noop (storeFor ["alice"] [] "alice" ["dev"] []) aliceIdle "dev").1
      (by decide) (by unfold Redis.succeeds; decide),
    (Subscribe_Unsubscribe_noop (storeFor ["alice"] [] "alice" ["dev"] []) aliceIdle "ops").2.1
      (by decide),
    (((Subscribe_Unsubscribe_noop (storeFor ["alice"] [] "alice" [] []) aliceIdle "dev").2.2.1
      (User.Subscribe (storeFor ["alice"] [] "alice" [] []) aliceIdle "dev").1
      (User.Subscribe (storeFor ["alice"] [] "alice" [] []) aliceIdle "dev").2.1
      (by rfl)).2 _ (by decide) (by unfold Redis.succeeds; decide)).1⟩

/-- C2 as stated fails: "dev" is in the persisted set of alice and the
`SISMEMBER` of `Subscribe("dev")` fails with "i/o timeout". `Val()` reads
`false`, line 52 does not return, `SAdd` succeeds and `connect` reconciles:
the call returns nil with a handle opened on ["dev"] installed, the topic
list replaced and a listener launched, so the user is not as it was. -/
theorem Subscribe_read_failure_counterexample :
    "dev" ∈ (storeFor ["alice"] [] "alice" ["dev"] [some "i/o timeout"]).sets
      (userChannelsKey aliceIdle.name) ∧
    (User.Subscribe (storeFor ["alice"] [] "alice" ["dev"] [some "i/o timeout"])
        aliceIdle "dev").2 =
      ({ name := "alice", channels := ["dev"], channelsHandler := some { channels := ["dev"] },
         stopListener := { closed := false }, listenerRunning := false,
         MessageChan := { closed := false, sent := [] }, spawned := 1 },
        Res.ok ()) ∧
    (User.Subscribe (storeFor ["alice"] [] "alice" ["dev"] [some "i/o timeout"])
        aliceIdle "dev").2.1 ≠ aliceIdle := by
  refine ⟨by decide, by decide, by decide⟩

theorem GetChannels_sets (rdb : Redis) (name : String) :
    (GetChannels rdb name).1.sets = rdb.sets := by
  have h0 := SIsMember_sets rdb usersKey name
  unfold GetChannels
  rcases hs : SIsMember rdb usersKey name with ⟨rdb0, _ | _⟩
  · rw [hs] at h0
    exact h0
  · rw [hs] at h0
    simp only at h0 ⊢
    have h1 := SMembers_sets rdb0 ChannelsKey
    rcases hc1 : SMembers rdb0 ChannelsKey with ⟨rdb1, e | c1⟩
    · rw [hc1] at h1
      simp only at h1 ⊢
      rw [h1, h0]
    · rw [hc1] at h1
      simp only at h1 ⊢
      have h2 := SMembers_sets rdb1 (userChannelsKey name)
      rcases hc2 : SMembers rdb1 (userChannelsKey name) with ⟨rdb2, e | c2⟩ <;>
        · rw [hc2] at h2
          simp only at h2 ⊢
          rw [h2, h1, h0]

theorem GetChannels_not_mem (rdb : Redis) (name : String) (hm : name ∉ rdb.sets usersKey) :
    (GetChannels rdb name).2 = Res.err "user not exists" := by
  have hb := SIsMember_not_mem rdb usersKey name hm
  unfold GetChannels
  rcases hs : SIsMember rdb usersKey name with ⟨rdb0, b⟩
  rw [hs] at hb
  simp only at hb
  subst hb
  rfl

theorem GetChannels_reads (rdb : Redis) (name : String) (hreads : rdb.succeeds 3)
    (hm : name ∈ rdb.sets usersKey) :
    (GetChannels rdb name).2 =
      Res.ok (rdb.sets ChannelsKey ++ rdb.sets (userChannelsKey name)) := by
  have h0 := SIsMember_succeeds rdb usersKey name 2 hreads
  have hs0 := SIsMember_sets rdb usersKey name
  unfold GetChannels
  rcases hs : SIsMember rdb usersKey name with ⟨rdb0, b⟩
  rw [hs] at h0 hs0
  simp only at h0 hs0
  have hb : b = true := by
    rw [h0.1]
    simpa using hm
  subst hb
  simp only
  have h1 := SMembers_succeeds rdb0 ChannelsKey 1 h0.2
  have hs1 := SMembers_sets rdb0 ChannelsKey
  rcases hc1 : SMembers rdb0 ChannelsKey with ⟨rdb1, e | c1⟩
  · rw [hc1] at h1
    simp at h1
  · rw [hc1] at h1 hs1
    simp only at h1 hs1 ⊢
    have h2 := SMembers_succeeds rdb1 (userChannelsKey name) 0 h1.2
    rcases hc2 : SMembers rdb1 (userChannelsKey name) with ⟨rdb2, e | c2⟩
    · rw [hc2] at h2
      simp at h2
    · rw [hc2] at h2
      simp only at h2 ⊢
      have e1 : c1 = rdb.sets ChannelsKey := by
        have := h1.1
        rw [hs0] at this
        simpa using this
      have e2 : c2 = rdb.sets (userChannelsKey name) := by
        have := h2.1
        rw [hs1, hs0] at this
        simpa using this
      rw [e1, e2]

/-- C3: when the store reads succeed (the membership read and the two
`SMEMBERS`), `GetChannels(name)` returns the error "user not exists"
exactly when `name` is not in the set of connected users; when it is, the
call succeeds and a channel occurs in the returned slice exactly when it is
in the global set or in the per-user set of `name`. With or without read
failures the call leaves every stored set as it was. -/
theorem GetChannels_spec (rdb : Redis) (name : String) (hreads : rdb.succeeds 3) :
    ((GetChannels rdb name).2 = Res.err "user not exists" ↔ name ∉ rdb.sets usersKey) ∧
    (name ∈ rdb.sets usersKey →
      ∃ c, (GetChannels rdb name).2 = Res.ok c ∧
        ∀ t, t ∈ c ↔ (t ∈ rdb.sets ChannelsKey ∨ t ∈ rdb.sets (userChannelsKey name))) ∧
    (GetChannels rdb name).1.sets = rdb.sets := by
  refine ⟨?_, ?_, GetChannels_sets rdb name⟩
  · constructor
    · intro h hm
      rw [GetChannels_reads rdb name hreads hm] at h
      simp at h
    · exact GetChannels_not_mem rdb name
  · intro hm
    exact ⟨_, GetChannels_reads rdb name hreads hm, fun t => List.mem_append⟩

/-- Witness for C3 on a store where alice is connected, "general" is global
and "dev" is her own channel; the fourth command of the script would fail. -/
theorem GetChannels_spec_witness :
    (storeFor ["alice"] ["general"] "alice" ["dev"] [none, none, none, some "down"]).succeeds 3 ∧
    ((GetChannels (storeFor ["alice"] ["general"] "alice" ["dev"] [none, none, none, some "down"])
          "bob").2 = Res.err "user not exists" ↔
      "bob" ∉ (storeFor ["alice"] ["general"] "alice" ["dev"]
        [none, none, none, some "down"]).sets usersKey) ∧
    (∃ c, (GetChannels (storeFor ["alice"] ["general"] "alice" ["dev"]
          [none, none, none, some "down"]) "alice").2 = Res.ok c ∧
      ∀ t, t ∈ c ↔
        (t ∈ (storeFor ["alice"] ["general"] "alice" ["dev"]
              [none, none, none, some "down"]).sets ChannelsKey ∨
          t ∈ (storeFor ["alice"] ["general"] "alice" ["dev"]
              [none, none, none, some "down"]).sets (userChannelsKey "alice"))) :=
  ⟨(by unfold Redis.succeeds; decide),
    (GetChannels_spec (storeFor ["alice"] ["general"] "alice" ["dev"]
      [none, none, none, some "down"]) "bob" (by unfold Redis.succeeds; decide)).1,
    (GetChannels_spec (storeFor ["alice"] ["general"] "alice" ["dev"]
      [none, none, none, some "down"]) "alice" (by unfold Redis.succeeds; decide)).2.1
      (by decide)⟩

/-! ## The channel list: concatenation of the two sets -/

theorem GetChannels_ok (rdb : Redis) (name : String) (c : List String)
    (h : (GetChannels rdb name).2 = Res.ok c) :
    c = rdb.sets ChannelsKey ++ rdb.sets (userChannelsKey name) := by
  have hs0 := SIsMember_sets rdb usersKey name
  unfold GetChannels at h
  rcases hs : SIsMember rdb usersKey name with ⟨rdb0, _ | _⟩
  · rw [hs] at h
    simp at h
  · rw [hs] at h hs0
    simp only at h hs0
    rcases hc1 : SMembers rdb0 ChannelsKey with ⟨rdb1, e | c1⟩
    · rw [hc1] at h
      simp at h
    · rw [hc1] at h
      simp only at h
      have h1 := SMembers_ok rdb0 rdb1 ChannelsKey c1 hc1
      rcases hc2 : SMembers rdb1 (userChannelsKey name) with ⟨rdb2, e | c2⟩
      · rw [hc2] at h
        simp at h
      · rw [hc2] at h
        simp only [Res.ok.injEq] at h
        have h2 := SMembers_ok rdb1 rdb2 (userChannelsKey name) c2 hc2
        rw [← h, h1.1, h2.1, h1.2, hs0]

theorem connect_ok_channels (rdb rdb1 : Redis) (u u1 : User)
    (h : User.connect rdb u = (rdb1, u1, Res.ok ()))
    (hne : rdb.sets ChannelsKey ++ rdb.sets (userChannelsKey u.name) ≠ []) :
    u1.channels = rdb.sets ChannelsKey ++ rdb.sets (userChannelsKey u.name) ∧
    u1.channelsHandler =
      some { channels := rdb.sets ChannelsKey ++ rdb.sets (userChannelsKey u.name) } := by
  unfold User.connect at h
  rcases hc1 : SMembers rdb ChannelsKey with ⟨rdb1, e | c1⟩
  · rw [hc1] at h
    simp at h
  · rw [hc1] at h
    simp only at h
    have h1 := SMembers_ok rdb rdb1 ChannelsKey c1 hc1
    rcases hc2 : SMembers rdb1 (userChannelsKey u.name) with ⟨rdb2, e | c2⟩
    · rw [hc2] at h
      simp at h
    · rw [hc2] at h
      simp only at h
      have h2 := SMembers_ok rdb1 rdb2 (userChannelsKey u.name) c2 hc2
      have hc : c1 ++ c2 = rdb.sets ChannelsKey ++ rdb.sets (userChannelsKey u.name) := by
        rw [h1.1, h2.1, h1.2]
      rw [← hc] at hne ⊢
      have hlen : ¬ (c1 ++ c2).length = 0 := by
        intro h0
        exact hne (List.length_eq_zero.mp h0)
      rw [if_neg hlen] at h
      rcases hc3 : closeHandler rdb2 u.channelsHandler with ⟨rdb3, _ | e⟩
      · rw [hc3] at h
        simp only at h
        split at h
        · split at h
          · simp at h
          · simp only [User.doConnect, Redis.Subscribe, Prod.mk.injEq] at h
            rw [← h.2.1]
            exact ⟨rfl, rfl⟩
        · simp only [User.doConnect, Redis.Subscribe, Prod.mk.injEq] at h
          rw [← h.2.1]
          exact ⟨rfl, rfl⟩
      · rw [hc3] at h
        simp at h

theorem count_append_nodup (g o : List String) (t : String) (hg : g.Nodup) (ho : o.Nodup) :
    (g ++ o).count t = (if t ∈ g then 1 else 0) + (if t ∈ o then 1 else 0) := by
  rw [List.count_append, List.count_eq_of_nodup hg, List.count_eq_of_nodup ho]

/-- C5, as the code has it: the slice `GetChannels` returns, and the slice a
reconciliation with a non-empty result installs in `u.channels` and passes
to the broker subscribe, is the global set followed by the per-user set,
without de-duplication. A channel occurs in it once for each of the two sets
it is a member of: once when it is in exactly one of them, twice when it is
in both. -/
theorem channels_concat_count (rdb : Redis) (u : User) (name : String) (hwf : rdb.WF) :
    (∀ c, (GetChannels rdb name).2 = Res.ok c →
      c = rdb.sets ChannelsKey ++ rdb.sets (userChannelsKey name) ∧
      ∀ t, c.count t =
        (if t ∈ rdb.sets ChannelsKey then 1 else 0) +
          (if t ∈ rdb.sets (userChannelsKey name) then 1 else 0)) ∧
    (∀ rdb1 u1, User.connect rdb u = (rdb1, u1, Res.ok ()) →
      rdb.sets ChannelsKey ++ rdb.sets (userChannelsKey u.name) ≠ [] →
      u1.channels = rdb.sets ChannelsKey ++ rdb.sets (userChannelsKey u.name) ∧
      u1.channelsHandler = some { channels := u1.channels } ∧
      ∀ t, u1.channels.count t =
        (if t ∈ rdb.sets ChannelsKey then 1 else 0) +
          (if t ∈ rdb.sets (userChannelsKey u.name) then 1 else 0)) := by
  refine ⟨?_, ?_⟩
  · intro c h
    have hc := GetChannels_ok rdb name c h
    refine ⟨hc, fun t => ?_⟩
    rw [hc]
    exact count_append_nodup _ _ t (hwf _) (hwf _)
  · intro rdb1 u1 h hne
    have hc := connect_ok_channels rdb rdb1 u u1 h hne
    refine ⟨hc.1, ?_, fun t => ?_⟩
    · rw [hc.2, hc.1]
    · rw [hc.1]
      exact count_append_nodup _ _ t (hwf _) (hwf _)

theorem storeFor_WF (users global : List String) (name : String) (own : List String)
    (faults : List (Option String)) (hu : users.Nodup) (hg : global.Nodup) (ho : own.Nodup) :
    (storeFor users global name own faults).WF := by
  intro key
  unfold storeFor
  simp only
  split
  · exact hu
  · split
    · exact hg
    · split
      · exact ho
      · exact List.nodup_nil

/-- Witness for C5: "general" is both a global channel and a channel of
alice; `GetChannels` reports it twice and a reconciliation installs it twice. -/
theorem channels_concat_count_witness :
    (storeFor ["alice"] ["general"] "alice" ["general"] []).WF ∧
    (∀ c, (GetChannels (storeFor ["alice"] ["general"] "alice" ["general"] []) "alice").2 =
        Res.ok c → c.count "general" = 2) ∧
    (User.connect (storeFor ["alice"] ["general"] "alice" ["general"] []) aliceIdle).2.1.channels =
      ["general", "general"] :=
  ⟨storeFor_WF _ _ _ _ _ (by decide) (by decide) (by decide),
    fun c h =>
      (((channels_concat_count (storeFor ["alice"] ["general"] "alice" ["general"] []) aliceIdle
        "alice" (storeFor_WF _ _ _ _ _ (by decide) (by decide) (by decide))).1 c h).2
          "general").trans (by decide),
    ((channels_concat_count (storeFor ["alice"] ["general"] "alice" ["general"] []) aliceIdle
        "alice" (storeFor_WF _ _ _ _ _ (by decide) (by decide) (by decide))).2
      (User.connect (storeFor ["alice"] ["general"] "alice" ["general"] []) aliceIdle).1
      (User.connect (storeFor ["alice"] ["general"] "alice" ["general"] []) aliceIdle).2.1
      (by rfl) (by decide)).1.trans (by decide)⟩

/-- C5 as stated fails: with "general" a global channel, `Connect("alice")`
followed by `Subscribe("general")` returns nil, installs the topic list
["general", "general"] on the user and on the broker handle, and
`GetChannels("alice")` on the resulting store returns that same slice, in
which "general" occurs twice. -/
theorem channels_duplicate_counterexample :
    (session (storeWith ["general"]) "alice" [Op.subscribe "general"]).2 =
      (some { name := "alice", channels := ["general", "general"],
              channelsHandler := some { channels := ["general", "general"] },
              stopListener := { closed := false }, listenerRunning := false,
              MessageChan := { closed := false, sent := [] }, spawned := 2 },
        Res.ok ()) ∧
    (GetChannels (session (storeWith ["general"]) "alice" [Op.subscribe "general"]).1 "alice").2 =
      Res.ok ["general", "general"] ∧
    ¬ (["general", "general"] : List String).Nodup := by
  refine ⟨by decide, by decide, by decide⟩

/-! ## Reconciliation: failures, the empty result, the stop channel -/

/-- C10, as the code has it: for a user whose listener is running and whose
handle is installed, when the two store reads succeed with a non-empty
result and the broker fails the `Unsubscribe` of the old handle, or accepts
it and fails the `Close`, with error `e`, then `connect` returns exactly `e`
and leaves every field of the user as it was before the call; in particular
`listenerRunning` is still true. The rebuild step `doConnect` returns nil in
every state. -/
theorem connect_teardown_error (rdb : Redis) (u : User) (p : PubSub) (e : String)
    (rest : List (Option String))
    (hrun : u.listenerRunning = true) (hh : u.channelsHandler = some p)
    (hne : rdb.sets ChannelsKey ++ rdb.sets (userChannelsKey u.name) ≠ []) :
    (rdb.faults = none :: none :: some e :: rest →
      User.connect rdb u = ({ rdb with faults := rest }, u, Res.err e) ∧
      (User.connect rdb u).2.1.listenerRunning = true) ∧
    (rdb.faults = none :: none :: none :: some e :: rest →
      User.connect rdb u = ({ rdb with faults := rest }, u, Res.err e) ∧
      (User.connect rdb u).2.1.listenerRunning = true) ∧
    (User.doConnect rdb u).2.2 = Res.ok () := by
  have hlen : ¬ (rdb.sets ChannelsKey ++ rdb.sets (userChannelsKey u.name)).length = 0 := by
    intro h0
    exact hne (List.length_eq_zero.mp h0)
  have hlen2 : ¬ (rdb.sets ChannelsKey = [] ∧ rdb.sets (userChannelsKey u.name) = []) := by
    intro h0
    apply hne
    rw [h0.1, h0.2]
    rfl
  refine ⟨?_, ?_, rfl⟩
  · intro hf
    have key : User.connect rdb u = ({ rdb with faults := rest }, u, Res.err e) := by
      simp [User.connect, SMembers, Redis.call, closeHandler, PubSub.Unsubscribe, hf, hh, hlen2]
    rw [key]
    exact ⟨rfl, hrun⟩
  · intro hf
    have key : User.connect rdb u = ({ rdb with faults := rest }, u, Res.err e) := by
      simp [User.connect, SMembers, Redis.call, closeHandler, PubSub.Unsubscribe, PubSub.Close,
        hf, hh, hlen2]
    rw [key]
    exact ⟨rfl, hrun⟩

/-- Witness for C10: alice listens on "general"; the broker fails the
`Unsubscribe` of her handle with "broker down". -/
theorem connect_teardown_error_witness :
    User.connect (storeFor ["alice"] ["general"] "alice" [] [none, none, some "broker down"])
        aliceListening =
      ({ storeFor ["alice"] ["general"] "alice" [] [none, none, some "broker down"] with
          faults := [] },
        aliceListening, Res.err "broker down") ∧
    (User.connect (storeFor ["alice"] ["general"] "alice" [] [none, none, some "broker down"])
        aliceListening).2.1.listenerRunning = true :=
  (connect_teardown_error
    (storeFor ["alice"] ["general"] "alice" [] [none, none, some "broker down"])
    aliceListening { channels := ["general"] } "broker down" []
    (by rfl) (by rfl) (by decide)).1 (by rfl)

/-- C10 as stated fails: alice listens on "general" and the broker fails the
`Close` of her old handle with "broker down"; the reconciliation returns that
error and her listener state afterwards is running, not not-running. -/
theorem connect_error_still_running_counterexample :
    aliceListening.listenerRunning = true ∧
    (User.connect
        (storeFor ["alice"] ["general"] "alice" ["dev"] [none, none, none, some "broker down"])
        aliceListening).2.2 = Res.err "broker down" ∧
    ¬ ((User.connect
        (storeFor ["alice"] ["general"] "alice" ["dev"] [none, none, none, some "broker down"])
        aliceListening).2.1.listenerRunning = false) := by
  refine ⟨by decide, by decide, by decide⟩

/-- C7 fails on the code: with no global channel, `Connect("alice")`,
`Subscribe("a")`, the listener starting, then `Unsubscribe("a")` removes "a"
from the store and reconciles on an empty result. `connect` returns nil at
line 95 before the teardown of lines 98-108: the listener flag is still
true, the handle opened on ["a"] is still installed and the topic list is
still ["a"], while the per-user set in the store is empty. -/
theorem connect_empty_keeps_subscription :
    (session (storeWith []) "alice"
        [Op.subscribe "a", Op.listenerStart, Op.unsubscribe "a"]).2 =
      (some { name := "alice", channels := ["a"],
              channelsHandler := some { channels := ["a"] },
              stopListener := { closed := false }, listenerRunning := true,
              MessageChan := { closed := false, sent := [] }, spawned := 0 },
        Res.ok ()) ∧
    (session (storeWith []) "alice"
        [Op.subscribe "a", Op.listenerStart, Op.unsubscribe "a"]).1.sets
      (userChannelsKey "alice") = [] ∧
    (session (storeWith []) "alice"
        [Op.subscribe "a", Op.listenerStart, Op.unsubscribe "a"]).1.sets ChannelsKey = [] := by
  refine ⟨by decide, by decide, by decide⟩

/-- C8 fails on the code: the stop channel is made once, in `Connect` (line
37), and `connect` only ever closes it. With "general" a global channel:
`Connect("alice")`, listener starts, `Subscribe("a")` closes the stop channel
(first close, returns nil, channel now closed), the new listener starts,
`Subscribe("b")` closes the same channel again and panics. -/
theorem stopListener_closed_twice :
    (session (storeWith ["general"]) "alice"
        [Op.listenerStart, Op.subscribe "a", Op.listenerStart]).2 =
      (some { name := "alice", channels := ["general", "a"],
              channelsHandler := some { channels := ["general", "a"] },
              stopListener := { closed := true }, listenerRunning := true,
              MessageChan := { closed := false, sent := [] }, spawned := 0 },
        Res.ok ()) ∧
    (session (storeWith ["general"]) "alice"
        [Op.listenerStart, Op.subscribe "a", Op.listenerStart, Op.subscribe "b"]).2.2 =
      Res.panic "close of closed channel" := by
  refine ⟨by decide, by decide⟩

/-- C4 fails on the code: for a freshly connected alice with an empty
per-user set, the calls `Subscribe("a")`, `Subscribe("b")`,
`Unsubscribe("a")`, each listener starting before the next call, do not all
return: with no global channel the third call panics, and with the global
channel "general" already the second call panics (close of the closed stop
channel). -/
theorem subscribe_subscribe_unsubscribe_panics :
    (session (storeWith []) "alice"
        [Op.subscribe "a", Op.listenerStart, Op.subscribe "b", Op.listenerStart,
          Op.unsubscribe "a"]).2.2 = Res.panic "close of closed channel" ∧
    (session (storeWith ["general"]) "alice"
        [Op.listenerStart, Op.subscribe "a", Op.listenerStart, Op.subscribe "b",
          Op.listenerStart, Op.unsubscribe "a"]).2.2 = Res.panic "close of closed channel" := by
  refine ⟨by decide, by decide⟩

/-! ## `Disconnect` -/

/-- C6 fails on the code: with no channel at all, `Connect("alice")` installs
no handle and starts no listener; the first `Disconnect` returns nil with the
message channel closed, and the second `Disconnect` reaches line 158 again
and panics closing the closed message channel. -/
theorem Disconnect_twice_panics :
    (session (storeWith []) "alice" [Op.disconnect]).2 =
      (some { name := "alice", channels := [], channelsHandler := none,
              stopListener := { closed := false }, listenerRunning := false,
              MessageChan := { closed := true, sent := [] }, spawned := 0 },
        Res.ok ()) ∧
    (session (storeWith []) "alice" [Op.disconnect, Op.disconnect]).2.2 =
      Res.panic "close of closed channel" := by
  refine ⟨by decide, by decide⟩

/-- With a handle installed, a second `Disconnect` in a run that follows the
client library (the `Unsubscribe` of the closed handle answers
`redis: client is closed`) returns that error at lines 143-145 and reaches
no `close`: the first call has closed the stop channel and the message
channel once each. -/
theorem Disconnect_twice_closed_handle :
    (session (storeFor [] ["general"] "alice" []
        [none, none, none, none, none, none, none, some "redis: client is closed"]) "alice"
        [Op.listenerStart, Op.disconnect]).2 =
      (some { name := "alice", channels := ["general"],
              channelsHandler := some { channels := ["general"] },
              stopListener := { closed := true }, listenerRunning := false,
              MessageChan := { closed := true, sent := [] }, spawned := 0 },
        Res.ok ()) ∧
    (session (storeFor [] ["general"] "alice" []
        [none, none, none, none, none, none, none, some "redis: client is closed"]) "alice"
        [Op.listenerStart, Op.disconnect, Op.disconnect]).2.2 = Res.err clientClosed := by
  refine ⟨by decide, by decide⟩

/-! ## The listener loop -/

/-- C9 fails on the code: no pass through the loop body leaves the `for`
(each `break` ends only the `select`), so the listener does not terminate on
stream end or on cancellation; after observing the cancellation it is still
in the loop and forwards the next message it receives. -/
theorem listener_never_exits :
    (∀ mc ev, (listenerIter mc ev).2 ≠ Flow.exit) ∧
    listenerRun { closed := false, sent := [] } [Event.streamEnded] =
      ({ closed := false, sent := [] }, Flow.iterate) ∧
    listenerRun { closed := false, sent := [] } [Event.cancelled, Event.message hiOnDev] =
      ({ closed := false, sent := [hiOnDev] }, Flow.iterate) := by
  refine ⟨?_, by decide, by decide⟩
  intro mc ev
  cases ev with
  | message m =>
    simp only [listenerIter]
    by_cases hc : mc.closed = true <;> simp [hc]
  | streamEnded => simp [listenerIter]
  | cancelled => simp [listenerIter]

/-! ## Supporting facts: the key space, set well-formedness, the stop channel -/

theorem userChannelsKey_ne_usersKey (name : String) : userChannelsKey name ≠ usersKey := by
  intro h
  have hd := congrArg String.data h
  simp [userChannelsKey, usersKey, String.data_append] at hd

theorem userChannelsKey_ne_ChannelsKey (name : String) : userChannelsKey name ≠ ChannelsKey := by
  intro h
  have hd := congrArg String.data h
  simp [userChannelsKey, ChannelsKey, String.data_append] at hd

theorem userChannelsKey_injective (a b : String) (h : userChannelsKey a = userChannelsKey b) :
    a = b := by
  have hd := congrArg String.data h
  simp [userChannelsKey, String.data_append] at hd
  exact String.ext hd

theorem SAdd_WF (rdb : Redis) (key member : String) (h : rdb.WF) :
    (SAdd rdb key member).1.WF := by
  have hs := call_sets rdb
  unfold SAdd
  rcases hc : rdb.call with ⟨r, _ | e⟩
  · rw [hc] at hs
    simp only at hs ⊢
    by_cases hm : member ∈ r.sets key
    · rw [if_pos hm]
      intro k
      simp only
      rw [hs]
      exact h k
    · rw [if_neg hm]
      intro k
      simp only
      by_cases hk : k = key
      · subst hk
        rw [Function.update_same]
        have hn : (r.sets k).Nodup := by
          rw [hs]
          exact h k
        refine List.Nodup.append hn (List.nodup_singleton member) ?_
        intro a ha hb
        rw [List.mem_singleton] at hb
        subst hb
        exact hm ha
      · rw [Function.update_noteq hk, hs]
        exact h k
  · rw [hc] at hs
    intro k
    simp only at hs ⊢
    rw [hs]
    exact h k

theorem SRem_WF (rdb : Redis) (key member : String) (h : rdb.WF) :
    (SRem rdb key member).1.WF := by
  have hs := call_sets rdb
  unfold SRem
  rcases hc : rdb.call with ⟨r, _ | e⟩
  · rw [hc] at hs
    intro k
    simp only at hs ⊢
    by_cases hk : k = key
    · subst hk
      rw [Function.update_same]
      have hn : (r.sets k).Nodup := by
        rw [hs]
        exact h k
      exact hn.filter _
    · rw [Function.update_noteq hk, hs]
      exact h k
  · rw [hc] at hs
    intro k
    simp only at hs ⊢
    rw [hs]
    exact h k

theorem closeHandler_succeeds (rdb : Redis) (h : Option PubSub) (n : Nat)
    (hs : rdb.succeeds (n + 2)) : (closeHandler rdb h).2 = none := by
  unfold closeHandler
  cases h with
  | none => rfl
  | some p =>
    simp only [PubSub.Unsubscribe, PubSub.Close]
    have h1 := call_succeeds rdb (n + 1) hs
    rcases hc : rdb.call with ⟨r, _ | e⟩
    · rw [hc] at h1
      simp only
      exact (call_succeeds r n h1.2).1
    · rw [hc] at h1
      simp at h1

theorem closeHandler_succeeds_rest (rdb : Redis) (h : Option PubSub) (n : Nat)
    (hs : rdb.succeeds (n + 2)) : (closeHandler rdb h).1.succeeds n := by
  unfold closeHandler
  cases h with
  | none =>
    intro f hf
    exact hs f (List.mem_of_mem_take (by
      have := List.take_take n (n + 2) rdb.faults
      rw [Nat.min_eq_left (by omega)] at this
      rw [← this] at hf
      exact hf))
  | some p =>
    simp only [PubSub.Unsubscribe, PubSub.Close]
    have h1 := call_succeeds rdb (n + 1) hs
    rcases hc : rdb.call with ⟨r, _ | e⟩
    · rw [hc] at h1
      simp only
      exact (call_succeeds r n h1.2).2
    · rw [hc] at h1
      simp at h1

/-- Every reconciliation with a non-empty result on a user whose listener is
running and whose stop channel is already closed panics, when the four
commands it issues succeed. -/
theorem connect_panics_on_closed_stopListener (rdb : Redis) (u : User)
    (hrun : u.listenerRunning = true) (hclosed : u.stopListener.closed = true)
    (hne : rdb.sets ChannelsKey ++ rdb.sets (userChannelsKey u.name) ≠ [])
    (hs : rdb.succeeds 4) :
    (User.connect rdb u).2.2 = Res.panic closeOfClosed := by
  unfold User.connect
  have h1 := SMembers_succeeds rdb ChannelsKey 3 hs
  have hs1 := SMembers_sets rdb ChannelsKey
  rcases hc1 : SMembers rdb ChannelsKey with ⟨rdb1, e | c1⟩
  · rw [hc1] at h1
    simp at h1
  · rw [hc1] at h1 hs1
    simp only at h1 hs1 ⊢
    have h2 := SMembers_succeeds rdb1 (userChannelsKey u.name) 2 h1.2
    rcases hc2 : SMembers rdb1 (userChannelsKey u.name) with ⟨rdb2, e | c2⟩
    · rw [hc2] at h2
      simp at h2
    · rw [hc2] at h2
      simp only at h2 ⊢
      have e1 : c1 = rdb.sets ChannelsKey := by
        have := h1.1
        simpa using this
      have e2 : c2 = rdb.sets (userChannelsKey u.name) := by
        have := h2.1
        rw [hs1] at this
        simpa using this
      have hlen : ¬ (c1 ++ c2).length = 0 := by
        intro h0
        apply hne
        rw [← e1, ← e2]
        exact List.length_eq_zero.mp h0
      rw [if_neg hlen]
      have h3 := closeHandler_succeeds rdb2 u.channelsHandler 0 h2.2
      rcases hc3 : closeHandler rdb2 u.channelsHandler with ⟨rdb3, _ | e⟩
      · simp [hrun, Chan.close, hclosed]
      · rw [hc3] at h3
        simp at h3

/-- The reconciliation never reopens or replaces the stop channel: once
closed it is closed after every `connect`. -/
theorem connect_stopListener_stays_closed (rdb : Redis) (u : User)
    (hclosed : u.stopListener.closed = true) :
    (User.connect rdb u).2.1.stopListener.closed = true := by
  unfold User.connect
  rcases SMembers rdb ChannelsKey with ⟨rdb1, e | c1⟩
  · exact hclosed
  · simp only
    rcases SMembers rdb1 (userChannelsKey u.name) with ⟨rdb2, e | c2⟩
    · exact hclosed
    · simp only
      split
      · exact hclosed
      · rcases closeHandler rdb2 u.channelsHandler with ⟨rdb3, _ | e⟩
        · simp only
          split
          · simp [Chan.close, hclosed]
          · simp [User.doConnect, hclosed]
        · exact hclosed

end ChatUser
